import Mathlib

/-
Verification of the flood-risk dashboard (app.py).

The program loads a fitted KMeans model and a feature scaler, derives a
risk mapping from the cluster centroids (get_cluster_info), and classifies
a user-supplied observation (rainfall, elevation) in the first dashboard
tab; the second tab renders the centroid table.

Embedding conventions:
- Feature values are embedded as rationals; the claims under study concern
  only comparisons and ordering of feature values, never float rounding.
- Python dicts built with distinct keys are embedded as association lists
  in insertion order; dict lookup is List.lookup.
- pandas sort_values(by) with its default sort kind orders rows by the
  given column but does not specify the relative order of rows with equal
  keys (the default quicksort is documented as not stable). The embedding
  must fix one deterministic order and uses List.insertionSort, which
  keeps equal keys in input order; the theorems below do not depend on
  this choice of tie order: they use the sort only as an
  elevation-ordered permutation of the rows that is determined by the
  elevation column.
- The sklearn model and scaler are external collaborators; where a claim
  needs them they are abstract function parameters.
-/

namespace FloodApp

/-- A cluster center in raw (de-normalized) units: one row of
centers_original = scaler.inverse_transform(model.cluster_centers_),
columns Curah_Hujan (rainfall) and Elevasi (elevation), app.py line 82. -/
structure Center where
  curahHujan : ℚ
  elevasi : ℚ
deriving DecidableEq, Repr

/-- One row of the df_centers DataFrame (app.py lines 85-86): the two
feature columns plus the Cluster_Label column, which is the row index. -/
structure LabeledCenter where
  curahHujan : ℚ
  elevasi : ℚ
  clusterLabel : ℕ
deriving DecidableEq, Repr

/-- The hardcoded severity scale, app.py line 103. -/
def labels : List String := ["Sangat Rawan (Bahaya)", "Waspada (Siaga)", "Aman"]

/-- The hardcoded colors, app.py line 104 (red, orange, green). -/
def color_codes : List String := ["#FF4B4B", "#FFA500", "#28A745"]

/-- The risk label the loop body (app.py lines 106-112) assigns at sorted
position i: labels at index i when i is less than len(labels), otherwise
the fallback string built from the rank. Since len(labels) = 3 is exactly
the length of the labels list, the branch test is captured by getD. -/
def catLabel (i : ℕ) : String :=
  labels.getD i ("Level " ++ toString i)

/-- The color the loop body (app.py lines 106-113) assigns at sorted
position i: color_codes at index i when i is less than len(labels) = 3 =
len(color_codes), otherwise the neutral gray. -/
def catColor (i : ℕ) : String :=
  color_codes.getD i "#808080"

/-- df_centers (app.py lines 85-86): the de-normalized centers with
Cluster_Label = range(len(df_centers)). -/
def mkDfCenters (centers : List Center) : List LabeledCenter :=
  centers.enum.map (fun p => ⟨p.2.curahHujan, p.2.elevasi, p.1⟩)

/-- The row order used by df_centers.sort_values(by = Elevasi): compare
rows by the Elevasi column. -/
def elevLE (a b : LabeledCenter) : Prop := a.elevasi ≤ b.elevasi

instance : DecidableRel elevLE :=
  fun a b => inferInstanceAs (Decidable (a.elevasi ≤ b.elevasi))

instance : IsTotal LabeledCenter elevLE :=
  ⟨fun a b => le_total a.elevasi b.elevasi⟩

instance : IsTrans LabeledCenter elevLE :=
  ⟨fun _ _ _ hab hbc => le_trans hab hbc⟩

/-- df_sorted = df_centers.sort_values(by = Elevasi).reset_index(drop=True)
(app.py line 92). The source uses the pandas default sort kind, which
orders rows by Elevasi ascending but leaves the relative order of rows
with equal Elevasi unspecified; the embedding fixes that unspecified
order as the input order. No theorem below relies on the tie order: only
on the result being an elevation-sorted permutation of the rows,
determined by the Elevasi column. -/
def sortByElev (l : List LabeledCenter) : List LabeledCenter :=
  l.insertionSort elevLE

/-- get_cluster_info (app.py lines 75-115). Its only dependence on the
model and scaler is the de-normalized center matrix (one row per cluster),
passed here as the centers argument. It builds df_centers, sorts by
elevation, and fills the risk_mapping and colors dicts keyed by the
original Cluster_Label: position i in sorted order gets labels at i and
color_codes at i when i is below len(labels), else the fallback label and
neutral color. Returns (df_centers, risk_mapping, colors); note that the
returned frame is df_centers, not df_sorted. -/
def get_cluster_info (centers : List Center) :
    List LabeledCenter × List (ℕ × String) × List (ℕ × String) :=
  let df_centers := mkDfCenters centers
  let df_sorted := sortByElev df_centers
  let risk_mapping := df_sorted.enum.map (fun p => (p.2.clusterLabel, catLabel p.1))
  let colors := df_sorted.enum.map (fun p => (p.2.clusterLabel, catColor p.1))
  (df_centers, risk_mapping, colors)

/-- risk_map as bound at app.py line 118. -/
def risk_map (centers : List Center) : List (ℕ × String) :=
  (get_cluster_info centers).2.1

/-- color_map as bound at app.py line 118. -/
def color_map (centers : List Center) : List (ℕ × String) :=
  (get_cluster_info centers).2.2

/-- The sorted position of cluster id k: the index in df_sorted of the row
whose Cluster_Label is k. The loop assigns cluster id k the category and
color of this position. -/
def assignedRank (centers : List Center) (k : ℕ) : ℕ :=
  (sortByElev (mkDfCenters centers)).findIdx (fun c => c.clusterLabel == k)

/- ------------------------------------------------------------------ -/
/- Helper lemmas about the labeling pipeline.                          -/
/- ------------------------------------------------------------------ -/

theorem length_mkDfCenters (centers : List Center) :
    (mkDfCenters centers).length = centers.length := by
  simp [mkDfCenters]

theorem map_clusterLabel_mkDfCenters (centers : List Center) :
    (mkDfCenters centers).map LabeledCenter.clusterLabel
      = List.range centers.length := by
  rw [mkDfCenters, List.map_map]
  exact List.enum_map_fst centers

theorem sortByElev_perm (l : List LabeledCenter) : (sortByElev l).Perm l :=
  List.perm_insertionSort elevLE l

theorem sortByElev_sorted (l : List LabeledCenter) :
    List.Sorted elevLE (sortByElev l) :=
  List.sorted_insertionSort elevLE l

theorem length_sortByElev (l : List LabeledCenter) :
    (sortByElev l).length = l.length :=
  (sortByElev_perm l).length_eq

theorem map_clusterLabel_sorted_perm (centers : List Center) :
    ((sortByElev (mkDfCenters centers)).map LabeledCenter.clusterLabel).Perm
      (List.range centers.length) := by
  have h := (sortByElev_perm (mkDfCenters centers)).map LabeledCenter.clusterLabel
  rwa [map_clusterLabel_mkDfCenters] at h

theorem nodup_labels_sorted (centers : List Center) :
    ((sortByElev (mkDfCenters centers)).map LabeledCenter.clusterLabel).Nodup :=
  (map_clusterLabel_sorted_perm centers).symm.nodup (List.nodup_range _)

theorem exists_label_sorted (centers : List Center) (k : ℕ) (hk : k < centers.length) :
    ∃ c ∈ sortByElev (mkDfCenters centers), c.clusterLabel = k := by
  have hmem : k ∈ (sortByElev (mkDfCenters centers)).map LabeledCenter.clusterLabel :=
    (map_clusterLabel_sorted_perm centers).symm.subset (List.mem_range.mpr hk)
  rcases List.mem_map.mp hmem with ⟨c, hc, hlab⟩
  exact ⟨c, hc, hlab⟩

theorem assignedRank_lt (centers : List Center) (k : ℕ) (hk : k < centers.length) :
    assignedRank centers k < (sortByElev (mkDfCenters centers)).length := by
  apply List.findIdx_lt_length_of_exists
  rcases exists_label_sorted centers k hk with ⟨c, hc, hlab⟩
  exact ⟨c, hc, by simp [hlab]⟩

theorem label_at_assignedRank (centers : List Center) (k : ℕ)
    (h : assignedRank centers k < (sortByElev (mkDfCenters centers)).length) :
    ((sortByElev (mkDfCenters centers)).get ⟨assignedRank centers k, h⟩).clusterLabel
      = k := by
  unfold assignedRank at h ⊢
  have hp := @List.findIdx_getElem _ (fun c => c.clusterLabel == k)
    (sortByElev (mkDfCenters centers)) h
  simpa [List.get_eq_getElem] using hp

theorem getElem_mkDfCenters (centers : List Center) (i : ℕ) (hi : i < centers.length)
    (hi' : i < (mkDfCenters centers).length) :
    (mkDfCenters centers).get ⟨i, hi'⟩
      = ⟨(centers.get ⟨i, hi⟩).curahHujan, (centers.get ⟨i, hi⟩).elevasi, i⟩ := by
  simp [mkDfCenters, List.getElem_enum]

theorem eq_of_label_eq (centers : List Center) {x y : LabeledCenter}
    (hx : x ∈ mkDfCenters centers) (hy : y ∈ mkDfCenters centers)
    (h : x.clusterLabel = y.clusterLabel) : x = y := by
  have hnd : ((mkDfCenters centers).map LabeledCenter.clusterLabel).Nodup := by
    rw [map_clusterLabel_mkDfCenters]; exact List.nodup_range _
  exact List.inj_on_of_nodup_map hnd hx hy h

theorem elev_of_label (centers : List Center) {x : LabeledCenter}
    (hx : x ∈ sortByElev (mkDfCenters centers)) (k : ℕ) (hk : k < centers.length)
    (hlab : x.clusterLabel = k) : x.elevasi = (centers.get ⟨k, hk⟩).elevasi := by
  have hk' : k < (mkDfCenters centers).length := by
    rw [length_mkDfCenters]; exact hk
  have hx' : x ∈ mkDfCenters centers := (sortByElev_perm _).subset hx
  have hdk := getElem_mkDfCenters centers k hk hk'
  have hxd : x = (mkDfCenters centers).get ⟨k, hk'⟩ := by
    apply eq_of_label_eq centers hx' (List.get_mem _ _ _)
    rw [hdk, hlab]
  rw [hxd, hdk]

/-- Key ordering fact: the sorted position assigned to a cluster id is
strictly monotone in the elevation of its center. -/
theorem assignedRank_lt_of_elev_lt (centers : List Center) (a b : ℕ)
    (ha : a < centers.length) (hb : b < centers.length)
    (h : (centers.get ⟨a, ha⟩).elevasi < (centers.get ⟨b, hb⟩).elevasi) :
    assignedRank centers a < assignedRank centers b := by
  have hra := assignedRank_lt centers a ha
  have hrb := assignedRank_lt centers b hb
  have hla := label_at_assignedRank centers a hra
  have hlb := label_at_assignedRank centers b hrb
  have hea : ((sortByElev (mkDfCenters centers)).get
      ⟨assignedRank centers a, hra⟩).elevasi = (centers.get ⟨a, ha⟩).elevasi :=
    elev_of_label centers (List.get_mem _ _ _) a ha hla
  have heb : ((sortByElev (mkDfCenters centers)).get
      ⟨assignedRank centers b, hrb⟩).elevasi = (centers.get ⟨b, hb⟩).elevasi :=
    elev_of_label centers (List.get_mem _ _ _) b hb hlb
  by_contra hcon
  push_neg at hcon
  rcases Nat.lt_or_ge (assignedRank centers b) (assignedRank centers a) with hlt | hge
  · have hpair : List.Pairwise elevLE (sortByElev (mkDfCenters centers)) :=
      sortByElev_sorted (mkDfCenters centers)
    have hle := List.pairwise_iff_getElem.mp hpair
      (assignedRank centers b) (assignedRank centers a) hrb hra hlt
    have : (centers.get ⟨b, hb⟩).elevasi ≤ (centers.get ⟨a, ha⟩).elevasi := by
      rw [← hea, ← heb]
      simpa [List.get_eq_getElem, elevLE] using hle
    exact absurd h (not_lt.mpr this)
  · have heq : assignedRank centers a = assignedRank centers b :=
      le_antisymm hge hcon
    have : a = b := by
      rw [← hla, ← hlb]
      have hfin : (⟨assignedRank centers a, hra⟩ : Fin _)
          = ⟨assignedRank centers b, hrb⟩ := Fin.ext heq
      rw [hfin]
    subst this
    have : (centers.get ⟨a, ha⟩).elevasi = (centers.get ⟨a, hb⟩).elevasi := rfl
    exact absurd h (by simp)

/-- Lookup in a dict built by the loop over an enumerated sorted list:
the value at the first position carrying label k. -/
theorem lookup_enum_mapping (g : ℕ → String) :
    ∀ (s : List LabeledCenter) (n k : ℕ), (∃ c ∈ s, c.clusterLabel = k) →
      ((s.enumFrom n).map (fun p => (p.2.clusterLabel, g p.1))).lookup k
        = some (g (n + s.findIdx (fun c => c.clusterLabel == k))) := by
  intro s
  induction s with
  | nil =>
    intro n k h
    rcases h with ⟨c, hc, _⟩
    cases hc
  | cons c cs ih =>
    intro n k h
    by_cases hc : c.clusterLabel = k
    · subst hc
      simp [List.enumFrom_cons, List.findIdx_cons, List.lookup_cons]
    · have h' : ∃ d ∈ cs, d.clusterLabel = k := by
        rcases h with ⟨d, hd, hdk⟩
        rcases List.mem_cons.mp hd with rfl | hdcs
        · exact absurd hdk hc
        · exact ⟨d, hdcs, hdk⟩
      have hihr := ih (n + 1) k h'
      have hne : (k == c.clusterLabel) = false := by
        simp [Ne.symm hc]
      have hne' : (c.clusterLabel == k) = false := by
        simp [hc]
      rw [List.enumFrom_cons, List.map_cons, List.lookup_cons, hne, hihr,
        List.findIdx_cons, hne']
      simp [Nat.add_assoc, Nat.add_comm 1]

theorem risk_map_lookup (centers : List Center) (k : ℕ) (hk : k < centers.length) :
    (risk_map centers).lookup k = some (catLabel (assignedRank centers k)) := by
  have h := lookup_enum_mapping catLabel (sortByElev (mkDfCenters centers)) 0 k
    (exists_label_sorted centers k hk)
  simpa [risk_map, get_cluster_info, assignedRank, List.enum] using h

theorem color_map_lookup (centers : List Center) (k : ℕ) (hk : k < centers.length) :
    (color_map centers).lookup k = some (catColor (assignedRank centers k)) := by
  have h := lookup_enum_mapping catColor (sortByElev (mkDfCenters centers)) 0 k
    (exists_label_sorted centers k hk)
  simpa [color_map, get_cluster_info, assignedRank, List.enum] using h

theorem catLabel_of_ge (i : ℕ) (h : 3 ≤ i) :
    catLabel i = "Level " ++ toString i := by
  unfold catLabel
  exact List.getD_eq_default _ _ h

theorem catColor_of_ge (i : ℕ) (h : 3 ≤ i) : catColor i = "#808080" := by
  unfold catColor
  exact List.getD_eq_default _ _ h

theorem sorted_label_get_inj (centers : List Center) {i j : ℕ}
    (hi : i < (sortByElev (mkDfCenters centers)).length)
    (hj : j < (sortByElev (mkDfCenters centers)).length)
    (h : ((sortByElev (mkDfCenters centers)).get ⟨i, hi⟩).clusterLabel
       = ((sortByElev (mkDfCenters centers)).get ⟨j, hj⟩).clusterLabel) : i = j := by
  have hnd := nodup_labels_sorted centers
  have hi' : i < ((sortByElev (mkDfCenters centers)).map
      LabeledCenter.clusterLabel).length := by simpa using hi
  have hj' : j < ((sortByElev (mkDfCenters centers)).map
      LabeledCenter.clusterLabel).length := by simpa using hj
  apply (@List.Nodup.getElem_inj_iff _ _ hnd i hi' j hj').mp
  simp only [List.getElem_map]
  simpa [List.get_eq_getElem] using h

/-- The first position carrying the label found at position i is i itself:
the rank of the cluster id shown at sorted position i is i. -/
theorem assignedRank_label_at (centers : List Center) (i : ℕ)
    (hi : i < (sortByElev (mkDfCenters centers)).length) :
    assignedRank centers
      ((sortByElev (mkDfCenters centers)).get ⟨i, hi⟩).clusterLabel = i := by
  have hkN : ((sortByElev (mkDfCenters centers)).get ⟨i, hi⟩).clusterLabel
      < centers.length := by
    have hm := List.mem_map_of_mem LabeledCenter.clusterLabel
      (List.get_mem (sortByElev (mkDfCenters centers)) i hi)
    exact List.mem_range.mp ((map_clusterLabel_sorted_perm centers).subset hm)
  have hr := assignedRank_lt centers _ hkN
  have hl := label_at_assignedRank centers _ hr
  exact sorted_label_get_inj centers hr hi hl

/-- The key column of a dict built by the loop is the Cluster_Label column
of the sorted frame. -/
theorem keys_enum_mapping (g : ℕ → String) (s : List LabeledCenter) :
    ((s.enum.map (fun p => (p.2.clusterLabel, g p.1))).map Prod.fst)
      = s.map LabeledCenter.clusterLabel := by
  rw [List.map_map]
  conv_rhs => rw [← List.enum_map_snd s, List.map_map]
  rfl

theorem risk_map_keys (centers : List Center) :
    (risk_map centers).map Prod.fst
      = (sortByElev (mkDfCenters centers)).map LabeledCenter.clusterLabel := by
  simp only [risk_map, get_cluster_info]
  exact keys_enum_mapping catLabel _

theorem color_map_keys (centers : List Center) :
    (color_map centers).map Prod.fst
      = (sortByElev (mkDfCenters centers)).map LabeledCenter.clusterLabel := by
  simp only [color_map, get_cluster_info]
  exact keys_enum_mapping catColor _

/-- The data the mapping loop actually looks at for each row: the Elevasi
column (for ordering) and the Cluster_Label column (for keying). -/
def projEL (c : LabeledCenter) : ℚ × ℕ := (c.elevasi, c.clusterLabel)

def pairLE (p q : ℚ × ℕ) : Prop := p.1 ≤ q.1

instance : DecidableRel pairLE :=
  fun p q => inferInstanceAs (Decidable (p.1 ≤ q.1))

theorem map_projEL_sortByElev (l : List LabeledCenter) :
    (sortByElev l).map projEL = List.insertionSort pairLE (l.map projEL) :=
  List.map_insertionSort elevLE pairLE projEL l (fun _ _ _ _ => Iff.rfl)

theorem mkDf_projEL_eq (l₁ l₂ : List Center)
    (h : l₁.map Center.elevasi = l₂.map Center.elevasi) :
    (mkDfCenters l₁).map projEL = (mkDfCenters l₂).map projEL := by
  have hlen : l₁.length = l₂.length := by
    have hc := congrArg List.length h
    simpa using hc
  apply List.ext_getElem
  · simp [mkDfCenters, hlen]
  · intro n h1 h2
    have hn1 : n < l₁.length := by simpa [mkDfCenters] using h1
    have hn2 : n < l₂.length := by simpa [mkDfCenters] using h2
    have helev : l₁[n].elevasi = l₂[n].elevasi := by
      have hg := List.getElem_of_eq h (by simpa using hn1)
      simpa using hg
    simp [mkDfCenters, List.getElem_map, List.getElem_enum, projEL, helev]

theorem enum_mapping_eq_of_projEL (g : ℕ → String) (s₁ s₂ : List LabeledCenter)
    (h : s₁.map projEL = s₂.map projEL) :
    s₁.enum.map (fun p => (p.2.clusterLabel, g p.1))
      = s₂.enum.map (fun p => (p.2.clusterLabel, g p.1)) := by
  have hlen : s₁.length = s₂.length := by
    have hc := congrArg List.length h
    simpa using hc
  apply List.ext_getElem
  · simp [hlen]
  · intro n h1 h2
    have hn1 : n < s₁.length := by simpa using h1
    have hn2 : n < s₂.length := by simpa using h2
    have hlab : s₁[n].clusterLabel = s₂[n].clusterLabel := by
      have hg := List.getElem_of_eq h (by simpa using hn1)
      simp only [List.getElem_map, projEL] at hg
      exact congrArg Prod.snd hg
    simp [List.getElem_map, List.getElem_enum, hlab]

/- ------------------------------------------------------------------ -/
/- Embedding of the script flow around get_cluster_info: model loading, -/
/- the tab1 prediction block and the tab2 centroid table.               -/
/- ------------------------------------------------------------------ -/

/-- A Python float as fed through numpy: a finite value, or one of the
non-finite values NaN and the two infinities. -/
inductive FVal where
  | fin (q : ℚ)
  | nan
  | pinf
  | ninf
deriving DecidableEq, Repr

/-- Finiteness of a float value. The source never tests this; it exists
only so that spec claims about non-finite observations can be stated. -/
def FVal.isFinite : FVal → Bool
  | .fin _ => true
  | _ => false

/-- Errors a run of the script can raise, plus the error class named by
the spec. nameError: a global name is referenced before any assignment
(Python NameError). keyError: a dict subscript misses (Python KeyError).
invalidObservation is modelled from the spec: the spec error taxonomy
demands an InvalidObservation failure for non-finite inputs; the source
never raises it, and the constructor exists only so that claims about it
can be stated against the code. -/
inductive PyError where
  | nameError
  | keyError
  | invalidObservation
deriving DecidableEq, Repr

/-- The tab1 prediction block (app.py lines 152-160), taken at the point
where model is not None: build the input row, scale it with the external
scaler transform, predict a cluster id with the external model, and
subscript the risk and color dicts. The source performs no validation of
the input values: there is no finiteness check and no code path that
raises InvalidObservation. A dict subscript with a missing key would be
the only failure (Python KeyError). -/
def tab1PredictBlock (transform : FVal × FVal → FVal × FVal)
    (predict : FVal × FVal → ℕ)
    (risk color : List (ℕ × String))
    (val_hujan val_elevasi : FVal) : Except PyError (String × String) :=
  let input_scaled := transform (val_hujan, val_elevasi)
  let prediction := predict input_scaled
  match risk.lookup prediction, color.lookup prediction with
  | some t, some c => Except.ok (t, c)
  | _, _ => Except.error PyError.keyError

/-- Outcome of load_models (app.py lines 60-70): on success a model and
scaler, summarized by the de-normalized centers they yield; on
FileNotFoundError an error box is shown and the pair (None, None) is
returned. -/
inductive LoadResult where
  | loaded (centers : List Center)
  | failedLoad

/-- App.py lines 117-118: df_centers, risk_map and color_map are assigned
only when model is not None; on load failure the three globals are never
assigned, modelled as none. -/
def globalClusterInfo : LoadResult →
    Option (List LabeledCenter × List (ℕ × String) × List (ℕ × String))
  | .loaded cs => some (get_cluster_info cs)
  | .failedLoad => none

/-- The tab1 body (app.py lines 150-219): the whole block is guarded by
if model is not None, so on load failure it renders nothing and raises
nothing; otherwise it runs the prediction block on the slider values. -/
def renderTab1 (transform : FVal × FVal → FVal × FVal)
    (predict : FVal × FVal → ℕ)
    (g : Option (List LabeledCenter × List (ℕ × String) × List (ℕ × String)))
    (val_hujan val_elevasi : FVal) :
    Except PyError (Option (String × String)) :=
  match g with
  | none => Except.ok none
  | some (_df, risk, color) =>
      (tab1PredictBlock transform predict risk color val_hujan val_elevasi).map some

/-- The tab2 body (app.py lines 221-231): unconditionally builds
df_display from the globals df_centers and risk_map, with the risk column
obtained by mapping the dict over the Cluster_Label column (a missing key
gives a hole, as pandas map does). When the globals were never assigned
because loading failed, the first reference raises NameError. -/
def renderTab2
    (g : Option (List LabeledCenter × List (ℕ × String) × List (ℕ × String))) :
    Except PyError (List (Option String × ℚ × ℚ)) :=
  match g with
  | some (df, risk, _color) =>
      Except.ok (df.map (fun c => (risk.lookup c.clusterLabel, c.curahHujan, c.elevasi)))
  | none => Except.error PyError.nameError

/-- The df_display table of tab2 (app.py lines 226-229) for a loaded
model: category, rainfall and elevation per row of df_centers. -/
def df_display (centers : List Center) : List (Option String × ℚ × ℚ) :=
  (get_cluster_info centers).1.map
    (fun c => ((get_cluster_info centers).2.1.lookup c.clusterLabel,
               c.curahHujan, c.elevasi))

/- Concrete center sets used to instantiate the claims. -/

def csOne : List Center := [⟨250, 5⟩]

def csTwo : List Center := [⟨300, 2⟩, ⟨100, 40⟩]

def csThree : List Center := [⟨300, 2⟩, ⟨200, 5⟩, ⟨100, 40⟩]

def csSc : List Center := [⟨100, 40⟩, ⟨300, 2⟩, ⟨200, 5⟩]

def csFive : List Center := [⟨500, 1⟩, ⟨400, 3⟩, ⟨300, 10⟩, ⟨200, 20⟩, ⟨100, 50⟩]

def csRev : List Center := [⟨100, 40⟩, ⟨200, 2⟩]

def csRainA : List Center := [⟨300, 2⟩, ⟨100, 40⟩]

def csRainB : List Center := [⟨0, 2⟩, ⟨999, 40⟩]

/- ------------------------------------------------------------------ -/
/- Claim theorems.                                                     -/
/- ------------------------------------------------------------------ -/

/-- C1: for every set of N cluster centers with N at least 1,
get_cluster_info produces a risk mapping whose keys are exactly the
cluster ids 0..N-1 that the model can produce, each appearing exactly
once, and the construction is total: it never fails for any N. -/
theorem C1_risk_mapping_total (centers : List Center) (_hN : 1 ≤ centers.length) :
    ((risk_map centers).map Prod.fst).Perm (List.range centers.length)
    ∧ ∀ k, k < centers.length → ((risk_map centers).map Prod.fst).count k = 1 := by
  have hperm : ((risk_map centers).map Prod.fst).Perm (List.range centers.length) := by
    rw [risk_map_keys]
    exact map_clusterLabel_sorted_perm centers
  refine ⟨hperm, fun k hk => ?_⟩
  have hnd : ((risk_map centers).map Prod.fst).Nodup :=
    hperm.symm.nodup (List.nodup_range _)
  have hmem : k ∈ (risk_map centers).map Prod.fst :=
    hperm.symm.subset (List.mem_range.mpr hk)
  exact List.count_eq_one_of_mem hnd hmem

/-- C1 witness at a one-center set. -/
theorem C1_witness : ((risk_map csOne).map Prod.fst).count 0 = 1 :=
  (C1_risk_mapping_total csOne (by decide)).2 0 (by decide)

/-- C2 counterexample: with a NaN elevation the tab1 prediction block
does not fail with InvalidObservation; it attempts the classification and
completes it, returning the category of the predicted cluster. -/
theorem C2_counterexample :
    tab1PredictBlock id (fun _ => 0) (risk_map csThree) (color_map csThree)
        (FVal.fin 250) FVal.nan
      = Except.ok ("Sangat Rawan (Bahaya)", "#FF4B4B")
    ∧ FVal.nan.isFinite = false
    ∧ tab1PredictBlock id (fun _ => 0) (risk_map csThree) (color_map csThree)
        (FVal.fin 250) FVal.nan ≠ Except.error PyError.invalidObservation := by
  have h1 : tab1PredictBlock id (fun _ => 0) (risk_map csThree) (color_map csThree)
      (FVal.fin 250) FVal.nan = Except.ok ("Sangat Rawan (Bahaya)", "#FF4B4B") := by
    rfl
  refine ⟨h1, rfl, ?_⟩
  rw [h1]
  simp

/-- C2 amended: the prediction block performs no validation at all: for
every observation, finite or not, it unconditionally scales the input,
predicts a cluster and subscripts the two dicts, so the outcome is either
a completed classification or a KeyError from a missing dict key, and
never an InvalidObservation error. -/
theorem C2_no_validation (transform : FVal × FVal → FVal × FVal)
    (predict : FVal × FVal → ℕ) (risk color : List (ℕ × String))
    (val_hujan val_elevasi : FVal) :
    ((∃ t c, tab1PredictBlock transform predict risk color val_hujan val_elevasi
        = Except.ok (t, c))
      ∨ tab1PredictBlock transform predict risk color val_hujan val_elevasi
        = Except.error PyError.keyError)
    ∧ tab1PredictBlock transform predict risk color val_hujan val_elevasi
        ≠ Except.error PyError.invalidObservation := by
  unfold tab1PredictBlock
  cases hr : risk.lookup (predict (transform (val_hujan, val_elevasi))) <;>
    cases hc : color.lookup (predict (transform (val_hujan, val_elevasi))) <;>
      simp [hr, hc]

/-- C3: when load_models fails, tab1 degrades gracefully (the guard skips
the prediction block), but the tab2 centroid view crashes: it references
the globals df_centers and risk_map, which are only assigned when model
is not None, so the script raises NameError instead of rendering. -/
theorem C3_tab2_crashes_on_load_failure :
    renderTab2 (globalClusterInfo LoadResult.failedLoad)
      = Except.error PyError.nameError
    ∧ ∀ transform predict h e,
        renderTab1 transform predict (globalClusterInfo LoadResult.failedLoad) h e
          = Except.ok none :=
  ⟨rfl, fun _ _ _ _ => rfl⟩

/-- C4: the risk categories are assigned in strictly increasing severity
rank as centroid elevation increases: a center with strictly lower
elevation gets a strictly smaller sorted position, and the mapping gives
each cluster id the category of its sorted position. -/
theorem C4_rank_strict_mono (centers : List Center) (a b : ℕ)
    (ha : a < centers.length) (hb : b < centers.length)
    (h : (centers.get ⟨a, ha⟩).elevasi < (centers.get ⟨b, hb⟩).elevasi) :
    assignedRank centers a < assignedRank centers b
    ∧ (risk_map centers).lookup a = some (catLabel (assignedRank centers a))
    ∧ (risk_map centers).lookup b = some (catLabel (assignedRank centers b)) :=
  ⟨assignedRank_lt_of_elev_lt centers a b ha hb h,
   risk_map_lookup centers a ha, risk_map_lookup centers b hb⟩

/-- C4 witness on two centers at elevations 2 and 40. -/
theorem C4_witness : assignedRank csTwo 0 < assignedRank csTwo 1 :=
  (C4_rank_strict_mono csTwo 0 1 (by decide) (by decide) (by decide)).1

/-- C5: with more than three clusters, each center at sorted position i
with i at least 3 receives the generic fallback category Level i with the
neutral color, rather than causing a failure. -/
theorem C5_fallback_levels (centers : List Center) (_hN : 3 < centers.length)
    (i : ℕ) (hi : i < (sortByElev (mkDfCenters centers)).length) (h3 : 3 ≤ i) :
    (risk_map centers).lookup
        ((sortByElev (mkDfCenters centers)).get ⟨i, hi⟩).clusterLabel
      = some ("Level " ++ toString i)
    ∧ (color_map centers).lookup
        ((sortByElev (mkDfCenters centers)).get ⟨i, hi⟩).clusterLabel
      = some "#808080" := by
  have hkN : ((sortByElev (mkDfCenters centers)).get ⟨i, hi⟩).clusterLabel
      < centers.length := by
    have hm := List.mem_map_of_mem LabeledCenter.clusterLabel
      (List.get_mem (sortByElev (mkDfCenters centers)) i hi)
    exact List.mem_range.mp ((map_clusterLabel_sorted_perm centers).subset hm)
  have hr := assignedRank_label_at centers i hi
  rw [risk_map_lookup centers _ hkN, color_map_lookup centers _ hkN, hr,
    catLabel_of_ge i h3, catColor_of_ge i h3]
  exact ⟨rfl, rfl⟩

/-- C5 witness: with five clusters the two highest sorted positions get
the labels Level 3 and Level 4. -/
theorem C5_witness :
    (risk_map csFive).lookup
        ((sortByElev (mkDfCenters csFive)).get ⟨3, by decide⟩).clusterLabel
      = some "Level 3"
    ∧ (risk_map csFive).lookup
        ((sortByElev (mkDfCenters csFive)).get ⟨4, by decide⟩).clusterLabel
      = some "Level 4" := by
  have h3 := (C5_fallback_levels csFive (by decide) 3 (by decide) (by decide)).1
  have h4 := (C5_fallback_levels csFive (by decide) 4 (by decide) (by decide)).1
  exact ⟨h3, h4⟩

/-- C7: with exactly three centers of pairwise distinct elevations, the
lowest-elevation center gets the severe category and red, the middle one
the caution category and orange, and the highest the safe category and
green, regardless of which cluster id each carries. -/
theorem C7_three_clusters (x y z : Center) (i j k : ℕ)
    (hi : i < 3) (hj : j < 3) (hk : k < 3)
    (hij : (([x, y, z] : List Center).get ⟨i, by simpa using hi⟩).elevasi
         < (([x, y, z] : List Center).get ⟨j, by simpa using hj⟩).elevasi)
    (hjk : (([x, y, z] : List Center).get ⟨j, by simpa using hj⟩).elevasi
         < (([x, y, z] : List Center).get ⟨k, by simpa using hk⟩).elevasi) :
    (risk_map [x, y, z]).lookup i = some "Sangat Rawan (Bahaya)"
    ∧ (color_map [x, y, z]).lookup i = some "#FF4B4B"
    ∧ (risk_map [x, y, z]).lookup j = some "Waspada (Siaga)"
    ∧ (color_map [x, y, z]).lookup j = some "#FFA500"
    ∧ (risk_map [x, y, z]).lookup k = some "Aman"
    ∧ (color_map [x, y, z]).lookup k = some "#28A745" := by
  have hlen : ([x, y, z] : List Center).length = 3 := rfl
  have hi' : i < ([x, y, z] : List Center).length := by simpa using hi
  have hj' : j < ([x, y, z] : List Center).length := by simpa using hj
  have hk' : k < ([x, y, z] : List Center).length := by simpa using hk
  have hij' := assignedRank_lt_of_elev_lt [x, y, z] i j hi' hj' hij
  have hjk' := assignedRank_lt_of_elev_lt [x, y, z] j k hj' hk' hjk
  have hri := assignedRank_lt [x, y, z] i hi'
  have hrj := assignedRank_lt [x, y, z] j hj'
  have hrk := assignedRank_lt [x, y, z] k hk'
  rw [length_sortByElev, length_mkDfCenters, hlen] at hri hrj hrk
  have hi0 : assignedRank [x, y, z] i = 0 := by omega
  have hj1 : assignedRank [x, y, z] j = 1 := by omega
  have hk2 : assignedRank [x, y, z] k = 2 := by omega
  rw [risk_map_lookup _ i hi', risk_map_lookup _ j hj', risk_map_lookup _ k hk',
    color_map_lookup _ i hi', color_map_lookup _ j hj', color_map_lookup _ k hk',
    hi0, hj1, hk2]
  exact ⟨rfl, rfl, rfl, rfl, rfl, rfl⟩

/-- C7 witness: scenario with elevations 40, 2, 5 carried by cluster ids
0, 1, 2: the lowest is id 1, the middle id 2, the highest id 0. -/
theorem C7_witness :
    (risk_map csSc).lookup 1 = some "Sangat Rawan (Bahaya)"
    ∧ (color_map csSc).lookup 0 = some "#28A745" := by
  have h := C7_three_clusters ⟨100, 40⟩ ⟨300, 2⟩ ⟨200, 5⟩ 1 2 0
    (by decide) (by decide) (by decide) (by decide) (by decide)
  exact ⟨h.1, h.2.2.2.2.2⟩

/-- C8: the mapping is independent of rainfall: two center sets agreeing
on every elevation (cluster ids are positional) give identical risk and
color mappings, however their rainfall values differ. -/
theorem C8_rainfall_noninterference (l₁ l₂ : List Center)
    (h : l₁.map Center.elevasi = l₂.map Center.elevasi) :
    risk_map l₁ = risk_map l₂ ∧ color_map l₁ = color_map l₂ := by
  have hpe : (sortByElev (mkDfCenters l₁)).map projEL
      = (sortByElev (mkDfCenters l₂)).map projEL := by
    rw [map_projEL_sortByElev, map_projEL_sortByElev, mkDf_projEL_eq l₁ l₂ h]
  constructor
  · simp only [risk_map, get_cluster_info]
    exact enum_mapping_eq_of_projEL catLabel _ _ hpe
  · simp only [color_map, get_cluster_info]
    exact enum_mapping_eq_of_projEL catColor _ _ hpe

/-- C8 witness: same elevations, rainfalls 300 and 100 against 0 and 999. -/
theorem C8_witness : risk_map csRainA = risk_map csRainB :=
  (C8_rainfall_noninterference csRainA csRainB (by decide)).1

/-- C9 counterexample: for centers at elevations 40 and 2, the list
returned for display carries elevations in the order 40, 2, while the
elevation-ascending order is 2, 40: the returned list is the unsorted
df_centers, not the sorted list the claim describes. -/
theorem C9_counterexample :
    ((get_cluster_info csRev).1.map LabeledCenter.elevasi) = [40, 2]
    ∧ ((sortByElev (mkDfCenters csRev)).map LabeledCenter.elevasi) = [2, 40]
    ∧ (get_cluster_info csRev).1 ≠ sortByElev (mkDfCenters csRev) := by
  refine ⟨?_, ?_, ?_⟩ <;> decide

/-- C9 amended: the center list returned for display purposes, and
rendered by the cluster-information view, is df_centers in original
cluster id order 0..N-1 with the original elevation order; the
elevation-sorted list is used only internally to build the mapping. -/
theorem C9_amended_display_order (centers : List Center) :
    (get_cluster_info centers).1 = mkDfCenters centers
    ∧ (get_cluster_info centers).1.map LabeledCenter.clusterLabel
        = List.range centers.length
    ∧ (df_display centers).map (fun r => r.2.2) = centers.map Center.elevasi := by
  refine ⟨rfl, map_clusterLabel_mkDfCenters centers, ?_⟩
  simp only [df_display, get_cluster_info, List.map_map]
  conv_rhs => rw [← List.enum_map_snd centers, List.map_map]
  simp [mkDfCenters, List.map_map]

/-- C10: the risk and color dicts have identical key columns, a
permutation of 0..N-1, and both lookups succeed for every cluster id the
model can produce, so the classification path cannot hit a missing key
when the assignment was built from the same model. -/
theorem C10_lookup_total (centers : List Center) :
    (risk_map centers).map Prod.fst = (color_map centers).map Prod.fst
    ∧ ((risk_map centers).map Prod.fst).Perm (List.range centers.length)
    ∧ ∀ k, k < centers.length →
        ((risk_map centers).lookup k).isSome = true
        ∧ ((color_map centers).lookup k).isSome = true := by
  refine ⟨by rw [risk_map_keys, color_map_keys], ?_, fun k hk => ?_⟩
  · rw [risk_map_keys]
    exact map_clusterLabel_sorted_perm centers
  · rw [risk_map_lookup centers k hk, color_map_lookup centers k hk]
    exact ⟨rfl, rfl⟩

/-- C10 witness at a three-center set. -/
theorem C10_witness : ((color_map csThree).lookup 2).isSome = true :=
  ((C10_lookup_total csThree).2.2 2 (by decide)).2

end FloodApp
